import Mathlib

/-!
# Verification of the Klamp't scene-graph caching and rendering engine

Shallow embedding of `Python/klampt/vis/visualization.py` (display-list
caching, per-item appearance state, the named scene registry, and the
per-frame render pass), together with theorems settling the spec claims.

Machine integers do not appear in the relevant code; Python floats used
for times/colors are modelled as `ℚ` (only equalities and linear
arithmetic on them matter to the claims).  Python `None` is modelled as
`Option.none`, Python exceptions as explicit error results.
-/

set_option maxHeartbeats 1000000

namespace KlamptVis

/-!
## CachedGLObject (visualization.py lines 470-533)

The drawing side effects are modelled as traces of primitive GL calls:
`R` is the type of the raw primitive calls a render function issues,
`X` the type of transforms (`glMultMatrixf` arguments), and `P` the type
of fingerprint parameters.  An OpenGL display list compiled with
`GL_COMPILE_AND_EXECUTE` is modelled as the recorded list of raw calls
(replaying the handle replays exactly the recorded calls).
-/

/-- A primitive GL call as it appears in a draw trace: the matrix-stack
calls issued directly by `CachedGLObject.draw` plus the raw calls issued
by the render function. -/
inductive GLPrim (X R : Type) where
  | pushMatrix : GLPrim X R
  | multMatrix : X → GLPrim X R
  | popMatrix : GLPrim X R
  | raw : R → GLPrim X R
deriving DecidableEq, Repr

/-- State of a `CachedGLObject` (lines 475-484): the display list (None
until first compiled; afterwards the recorded calls), the recursion
marker `makingDisplayList`, the fingerprint stored at the last compile,
and the dirty bit `changed`. -/
structure CachedGLObject (P X R : Type) where
  glDisplayList : Option (List R) := none
  makingDisplayList : Bool := false
  displayListParameters : Option P := none
  changed : Bool := false
deriving DecidableEq, Repr

/-- `markChanged` (lines 492-495). -/
def CachedGLObject.markChanged (s : CachedGLObject P X R) : CachedGLObject P X R :=
  { s with changed := true }

/-- `destroy` (lines 486-490): releases the display list. -/
def CachedGLObject.destroy (s : CachedGLObject P X R) : CachedGLObject P X R :=
  { s with glDisplayList := none }

/-- Result of one `draw` call: the successor state, the trace of GL
calls issued during the call, and whether the display list was
(re)compiled on this call. -/
structure DrawResult (P X R : Type) where
  state : CachedGLObject P X R
  trace : List (GLPrim X R)
  recompiled : Bool
deriving DecidableEq, Repr

/-- `if transform: glPushMatrix(); glMultMatrixf(...)` before the body
and `glPopMatrix()` after it (lines 515-517, 525-526 and 528-533).
A transform is an se3 pair, always truthy, so only `None` skips it. -/
def applyTransform (t : Option X) (body : List (GLPrim X R)) : List (GLPrim X R) :=
  match t with
  | none => body
  | some x => GLPrim.pushMatrix :: GLPrim.multMatrix x :: (body ++ [GLPrim.popMatrix])

/-- The recompilation condition of line 508:
`self.glDisplayList == None or self.changed or parameters != self.displayListParameters`. -/
def CachedGLObject.needsCompile [DecidableEq P] (s : CachedGLObject P X R)
    (parameters : Option P) : Bool :=
  s.glDisplayList.isNone || s.changed || decide (parameters ≠ s.displayListParameters)

/-- `CachedGLObject.draw(renderFunction, transform, parameters)`
(lines 497-533).  The render function is modelled by the trace of raw GL
calls it would issue.  Re-entrant calls (`makingDisplayList` set) invoke
the render function directly and return (lines 505-507).  Otherwise the
list is recompiled iff there is no list, the dirty bit is set, or the
parameters differ from the stored ones (line 508); compilation records
and executes the render calls under the transform (lines 509-526), and
the valid-cache branch replays the recorded calls under the transform
(lines 527-533). -/
def CachedGLObject.draw [DecidableEq P] (s : CachedGLObject P X R)
    (renderFunction : List R) (transform : Option X) (parameters : Option P) :
    DrawResult P X R :=
  if s.makingDisplayList then
    ⟨s, renderFunction.map GLPrim.raw, false⟩
  else if s.needsCompile parameters then
    ⟨{ s with glDisplayList := some renderFunction,
              displayListParameters := parameters,
              changed := false },
      applyTransform transform (renderFunction.map GLPrim.raw), true⟩
  else
    ⟨s, applyTransform transform ((s.glDisplayList.getD []).map GLPrim.raw), false⟩

/-!
### Call sequences on one CachedGLObject

Claim C1 quantifies over sequences of `draw`/`markChanged` calls made
from outside any re-entrant call, so we run the object through a list of
such events and compare it against a state machine transliterated from
the claim's own wording.
-/

/-- One external call on a `CachedGLObject`. -/
inductive CacheEvent (P X R : Type) where
  | draw (renderFunction : List R) (transform : Option X) (parameters : Option P)
  | markChanged
deriving DecidableEq, Repr

/-- Effect of one event on the code-level state. -/
def stepCache [DecidableEq P] (s : CachedGLObject P X R) :
    CacheEvent P X R → CachedGLObject P X R
  | .draw f t p => (s.draw f t p).state
  | .markChanged => s.markChanged

/-- Run a fresh `CachedGLObject` (the `__init__` state, lines 475-484)
through a sequence of events. -/
def runCache [DecidableEq P] (es : List (CacheEvent P X R)) : CachedGLObject P X R :=
  es.foldl stepCache {}

/-- Claim-level cache bookkeeping: whether a cached handle exists,
whether `markChanged` was called since the last compile, and the
parameters stored at the last compile. -/
structure CacheSpecState (P : Type) where
  hasHandle : Bool := false
  markedSinceCompile : Bool := false
  lastCompileParams : Option P := none
deriving DecidableEq, Repr

/-- The claim's recompilation condition: no cached handle yet, or
`markChanged` was called since the last compile, or the parameters
differ by value equality from those stored at the last compile. -/
def specRecompile [DecidableEq P] (σ : CacheSpecState P) (parameters : Option P) : Bool :=
  !σ.hasHandle || σ.markedSinceCompile || decide (parameters ≠ σ.lastCompileParams)

/-- Claim-level transition: a draw that recompiles installs the handle,
resets the marked-since-compile flag and stores the parameters; every
other call leaves the bookkeeping unchanged except that `markChanged`
sets the flag. -/
def specStep [DecidableEq P] (σ : CacheSpecState P) :
    CacheEvent P X R → CacheSpecState P
  | .draw _ _ p =>
      if specRecompile σ p then ⟨true, false, p⟩ else σ
  | .markChanged => { σ with markedSinceCompile := true }

/-- Run the claim-level machine from its initial state. -/
def runCacheSpec [DecidableEq P] (es : List (CacheEvent P X R)) : CacheSpecState P :=
  es.foldl specStep {}

/-- Correspondence between the code state and the claim-level
bookkeeping, for render functions whose trace is determined by the
fingerprint parameters via `F`. -/
def cacheMatches [DecidableEq P] (F : Option P → List R)
    (s : CachedGLObject P X R) (σ : CacheSpecState P) : Prop :=
  s.makingDisplayList = false ∧
  s.glDisplayList.isSome = σ.hasHandle ∧
  s.changed = σ.markedSinceCompile ∧
  s.displayListParameters = σ.lastCompileParams ∧
  ∀ l, s.glDisplayList = some l → l = F s.displayListParameters

theorem needsCompile_matches [DecidableEq P] (F : Option P → List R)
    {s : CachedGLObject P X R} {σ : CacheSpecState P} (hm : cacheMatches F s σ)
    (p : Option P) : s.needsCompile p = specRecompile σ p := by
  obtain ⟨h1, h2, h3, h4, h5⟩ := hm
  simp only [CachedGLObject.needsCompile, specRecompile, ← h2, ← h3, ← h4]
  cases s.glDisplayList <;> simp

theorem stepCache_matches [DecidableEq P] (F : Option P → List R)
    {s : CachedGLObject P X R} {σ : CacheSpecState P} (hm : cacheMatches F s σ)
    (e : CacheEvent P X R)
    (he : ∀ f t p, e = CacheEvent.draw f t p → f = F p) :
    cacheMatches F (stepCache s e) (specStep σ e) := by
  have hmm := hm
  obtain ⟨h1, h2, h3, h4, h5⟩ := hmm
  cases e with
  | markChanged =>
      refine ⟨h1, h2, ?_, h4, h5⟩
      simp [stepCache, specStep, CachedGLObject.markChanged, h3]
  | draw f t p =>
      have hf : f = F p := he f t p rfl
      have hcond := needsCompile_matches F hm p
      cases hb : s.needsCompile p with
      | true =>
          have hspec : specRecompile σ p = true := hcond ▸ hb
          simp only [stepCache, CachedGLObject.draw, h1, Bool.false_eq_true, if_false,
            hb, if_true, specStep, hspec]
          refine ⟨rfl, rfl, rfl, rfl, ?_⟩
          intro l hl
          simp only [Option.some.injEq] at hl
          simpa [← hl] using hf
      | false =>
          have hspec : specRecompile σ p = false := hcond ▸ hb
          simp only [stepCache, CachedGLObject.draw, h1, Bool.false_eq_true, if_false,
            hb, specStep, hspec]
          exact hm

theorem foldl_matches [DecidableEq P] (F : Option P → List R)
    (es : List (CacheEvent P X R)) :
    ∀ (s : CachedGLObject P X R) (σ : CacheSpecState P), cacheMatches F s σ →
    (∀ f t p, CacheEvent.draw f t p ∈ es → f = F p) →
    cacheMatches F (es.foldl stepCache s) (es.foldl specStep σ) := by
  induction es with
  | nil => intro s σ hm _; exact hm
  | cons e es ih =>
      intro s σ hm hdet
      simp only [List.foldl_cons]
      refine ih _ _ (stepCache_matches F hm e ?_) ?_
      · intro f t p hef
        exact hdet f t p (hef ▸ List.mem_cons_self e es)
      · intro f t p hmem
        exact hdet f t p (List.mem_cons_of_mem e hmem)

theorem runCache_matches [DecidableEq P] (F : Option P → List R)
    (es : List (CacheEvent P X R))
    (hdet : ∀ f t p, CacheEvent.draw f t p ∈ es → f = F p) :
    cacheMatches F (runCache es) (runCacheSpec es) := by
  refine foldl_matches F es _ _ ?_ hdet
  exact ⟨rfl, rfl, rfl, rfl, fun l hl => by simp at hl⟩

/-- C1: over any sequence of non-re-entrant `draw`/`markChanged` calls
on one `CachedGLObject` whose render traces are determined by the
fingerprint parameters, a `draw` call recompiles the display list iff no
cached handle exists yet, or `markChanged` was called since the last
compile, or the parameters differ by value equality from those stored at
the last compile; and when it does not recompile, the replayed trace
equals the trace of invoking the render function directly under the same
transform. -/
theorem cachedGLObject_cache_correct [DecidableEq P]
    (F : Option P → List R) (es : List (CacheEvent P X R))
    (f : List R) (t : Option X) (p : Option P)
    (hdet : ∀ f' t' p', CacheEvent.draw f' t' p' ∈ es → f' = F p')
    (hf : f = F p) :
    (((runCache es).draw f t p).recompiled = specRecompile (runCacheSpec es) p) ∧
    (specRecompile (runCacheSpec es) p = false →
      ((runCache es).draw f t p).trace = applyTransform t (f.map GLPrim.raw)) := by
  have hm := runCache_matches F es hdet
  have hcond := needsCompile_matches F hm p
  obtain ⟨h1, h2, h3, h4, h5⟩ := hm
  set s := runCache es with hs
  set σ := runCacheSpec es with hσ
  cases hb : s.needsCompile p with
  | true =>
      have hspec : specRecompile σ p = true := hcond ▸ hb
      constructor
      · simp [CachedGLObject.draw, h1, hb, hspec]
      · intro hfalse
        rw [hspec] at hfalse
        exact absurd hfalse (by simp)
  | false =>
      have hspec : specRecompile σ p = false := hcond ▸ hb
      have hdl : s.glDisplayList.isNone = false := by
        have := hb
        simp only [CachedGLObject.needsCompile, Bool.or_eq_false_iff] at this
        exact this.1.1
      have hpar : p = s.displayListParameters := by
        have := hb
        simp only [CachedGLObject.needsCompile, Bool.or_eq_false_iff,
          decide_eq_false_iff_not, not_not] at this
        exact this.2
      obtain ⟨l, hl⟩ : ∃ l, s.glDisplayList = some l := by
        cases hdll : s.glDisplayList with
        | none => rw [hdll] at hdl; simp at hdl
        | some l => exact ⟨l, rfl⟩
      have hlf : l = f := by
        have := h5 l hl
        rw [this, ← hpar, ← hf]
      constructor
      · simp [CachedGLObject.draw, h1, hb, hspec]
      · intro _
        simp [CachedGLObject.draw, h1, hb, hl, hlf]

/-- Witness for C1 at a concrete event sequence: after compiling with
fingerprint `1`, being marked changed and recompiling once more, a
further draw with fingerprint `1` does not recompile and its replay
trace equals a direct invocation of the render function under the given
transform. -/
theorem cachedGLObject_cache_correct_witness :
    (((runCache [CacheEvent.draw (P := ℕ) (X := ℕ) (R := ℕ) [5] none (some 1),
        CacheEvent.markChanged,
        CacheEvent.draw [5] none (some 1)]).draw [5] (some 7) (some 1)).recompiled = false) ∧
    (((runCache [CacheEvent.draw (P := ℕ) (X := ℕ) (R := ℕ) [5] none (some 1),
        CacheEvent.markChanged,
        CacheEvent.draw [5] none (some 1)]).draw [5] (some 7) (some 1)).trace =
      [GLPrim.pushMatrix, GLPrim.multMatrix 7, GLPrim.raw 5, GLPrim.popMatrix]) := by
  have h := cachedGLObject_cache_correct (fun _ => [5])
    [CacheEvent.draw (P := ℕ) (X := ℕ) (R := ℕ) [5] none (some 1),
      CacheEvent.markChanged, CacheEvent.draw [5] none (some 1)]
    [5] (some 7) (some 1)
    (by intro f' t' p' hmem
        simp only [List.mem_cons, List.not_mem_nil, or_false] at hmem
        rcases hmem with hx | hx | hx
        · cases hx; rfl
        · cases hx
        · cases hx; rfl) rfl
  refine ⟨?_, ?_⟩
  · rw [h.1]; decide
  · rw [h.2 (by decide)]; decide

/-- C6: a re-entrant `draw` call (recursion guard `makingDisplayList`
set) invokes the render function directly — its trace is exactly the
render function's raw calls — and returns without recompiling, leaving
the cached handle, stored fingerprint and dirty flag untouched. -/
theorem cachedGLObject_draw_reentrant [DecidableEq P]
    (s : CachedGLObject P X R) (f : List R) (t : Option X) (p : Option P)
    (h : s.makingDisplayList = true) :
    s.draw f t p = ⟨s, f.map GLPrim.raw, false⟩ := by
  simp [CachedGLObject.draw, h]

/-- Witness for C6: a concrete mid-recording state is left untouched by
an inner draw call, which just emits the inner render calls. -/
theorem cachedGLObject_draw_reentrant_witness :
    (CachedGLObject.draw (P := ℕ) (X := ℕ) (R := ℕ)
        ⟨some [1, 2], true, some 3, false⟩ [9] (some 4) (some 8)) =
      ⟨⟨some [1, 2], true, some 3, false⟩, [GLPrim.raw 9], false⟩ :=
  cachedGLObject_draw_reentrant ⟨some [1, 2], true, some 3, false⟩ [9] (some 4) (some 8) rfl

/-!
## Scene items

The kinds of objects `VisAppearance` dispatches on (`setItem`,
lines 555-574, and `draw`, lines 636-952).  Sub-item structure matters
only for `coordinates.Group` (named frames/points/directions and nested
subgroups) and `Hold` (an optional ik constraint and a list of contact
points), so the other kinds are carried as opaque tags; raw vectors
(`Vector3`/`Config` values) carry their coordinates since those act as
the item's configuration during animation.  Python floats are modelled
as `ℚ`.
-/

mutual
inductive Item where
  | point : Item
  | direction : Item
  | frame : Item
  | transform : Item
  | contactPoint : Item
  | ikGoal : Item
  | vector (v : List ℚ) : Item
  | rigidTransform : Item
  | group (frames points directions : List String) (subgroups : NamedItems) : Item
  | hold (hasIK : Bool) (contacts : ℕ) : Item
deriving DecidableEq
inductive NamedItems where
  | nil : NamedItems
  | cons (name : String) (item : Item) (rest : NamedItems) : NamedItems
deriving DecidableEq
end

/-- Attribute values stored in a `VisAppearance.attributes` map
(color/size/length/width/text_hidden, ...). -/
inductive PyVal where
  | pyNone : PyVal
  | pyBool (b : Bool) : PyVal
  | num (q : ℚ) : PyVal
  | vec (v : List ℚ) : PyVal
  | str (s : String) : PyVal
deriving DecidableEq, Repr

/-- An item's appearance slot (`item.appearance()`): an opaque base
state plus the color component that `setColor` overwrites.  `clone`
copies the value and `set` replaces it wholesale, so plain Lean values
model both. -/
structure Appearance where
  base : ℕ
  color : Option (List ℚ) := none
deriving DecidableEq, Repr

/-- The shape of `klampt.model.trajectory.Trajectory` as used here:
knot times and milestones (constructed at line 1054 as
`Trajectory(range(len(animation)), animation)`). -/
structure Trajectory where
  times : List ℚ
  milestones : List (List ℚ)
deriving DecidableEq, Repr

/-- Linear interpolation between two milestones. -/
def lerpConfig (a b : List ℚ) (u : ℚ) : List ℚ :=
  List.zipWith (fun x y => x + u * (y - x)) a b

/-- Interpolate inside the knot sequence at a time already wrapped into
the domain. -/
def interpKnots : List ℚ → List (List ℚ) → ℚ → List ℚ
  | ta :: tb :: ts, qa :: qb :: qs, u =>
      if u ≤ tb then
        if tb = ta then qa else lerpConfig qa qb ((u - ta) / (tb - ta))
      else interpKnots (tb :: ts) (qb :: qs) u
  | _ :: _, qa :: _, _ => qa
  | _, _, _ => []

/-- Modelled from the spec: the trajectory evaluator
`eval(time, mode)` with `mode="loop"` (§6), which wraps the evaluation
time into the trajectory's time domain and interpolates between the
bracketing milestones.  The trajectory module is not part of the two
source files. -/
def Trajectory.evalLoop (tr : Trajectory) (u : ℚ) : List ℚ :=
  match tr.times with
  | [] => []
  | t0 :: rest =>
      let tn := (t0 :: rest).getLast (by simp)
      let T := tn - t0
      let w := if T ≤ 0 then t0 else t0 + (u - t0) - T * ⌊(u - t0) / T⌋
      interpKnots (t0 :: rest) tr.milestones w

/-- Generic helpers for Python dict state carried as association lists
(first binding wins; `setEntry`/`delEntry` model `d[k] = v` and
`del d[k]`). -/
def findEntry {α : Type} : List (String × α) → String → Option α
  | [], _ => none
  | (k, v) :: rest, n => if k = n then some v else findEntry rest n

def setEntry {α : Type} : List (String × α) → String → α → List (String × α)
  | [], n, v => [(n, v)]
  | (k, w) :: rest, n, v => if k = n then (n, v) :: rest else (k, w) :: setEntry rest n v

def delEntry {α : Type} : List (String × α) → String → List (String × α)
  | [], _ => []
  | (k, w) :: rest, n => if k = n then rest else (k, w) :: delEntry rest n

/-!
## VisAppearance (visualization.py lines 535-634)

Fields of `__init__` (lines 536-554) and the sub-appearance tree.  At
this level the display lists carry no trace data, so the cache slots are
`CachedGLObject Unit Unit Unit` — exactly the state the registry
operations touch (`changed` via `markChanged`).  Reference-level
aliasing of the `attributes` dicts is modelled separately by `VisAlloc`
below; here attribute maps are carried by value.
-/

abbrev DisplayCache := CachedGLObject Unit Unit Unit

/-- The scalar fields of a `VisAppearance` (lines 536-554). -/
structure VisCore where
  name : Option String
  hidden : Bool := false
  useDefaultAppearance : Bool := true
  /-- The attribute written by the misspelled assignment
  `self.items[name].useDefaultApperance = True` at line 1137; like the
  Python attribute it does not exist (`none`) until that line runs, and
  it is distinct from `useDefaultAppearance`. -/
  useDefaultApperance : Option Bool := none
  customAppearance : Option Appearance := none
  animation : Option Trajectory := none
  animationStartTime : ℚ := 0
  animationSpeed : ℚ := 1
  attributes : List (String × PyVal) := []
  displayCache : List DisplayCache := [{}]
  drawConfig : Option (List ℚ) := none
  item : Item
deriving DecidableEq

mutual
inductive Vis where
  | mk : VisCore → Subs → Vis
deriving DecidableEq
inductive Subs where
  | nil : Subs
  | cons (key : String) (a : Vis) (rest : Subs) : Subs
deriving DecidableEq
end

def Vis.core : Vis → VisCore
  | .mk c _ => c

def Vis.subs : Vis → Subs
  | .mk _ s => s

def Vis.modifyCore (f : VisCore → VisCore) : Vis → Vis
  | .mk c s => .mk (f c) s

def Subs.append : Subs → Subs → Subs
  | .nil, t => t
  | .cons k a r, t => .cons k a (Subs.append r t)

/-- A `VisAppearance(item, name)` for an item with no sub-structure:
`setItem` installs no children on it, so it is just the `__init__`
field state (lines 536-554). -/
def leafVis (item : Item) (name : Option String) : Vis :=
  .mk { name := name, item := item } .nil

/-- Children contributed by the leaf collections of a Group
(lines 559-565): one fresh `VisAppearance(x, n)` per name. -/
def leafSubs (kindTag : String) (item : Item) : List String → Subs
  | [] => .nil
  | n :: ns => .cons (kindTag ++ ":" ++ n) (leafVis item (some n)) (leafSubs kindTag item ns)

/-- Children contributed by `enumerate(item.contacts)` of a Hold
(lines 571-572). -/
def contactSubsFrom : List ℕ → Subs
  | [] => .nil
  | i :: is => .cons ("contact:" ++ toString i)
      (leafVis Item.contactPoint (some (toString i))) (contactSubsFrom is)

/-- `for (k,a) in self.subAppearances.iteritems(): a.attributes =
self.attributes` (lines 573-574): overwrite each direct child's
attribute map (value level; the reference level is `VisAlloc`). -/
def shareAttributes : Subs → List (String × PyVal) → Subs
  | .nil, _ => .nil
  | .cons k (.mk c s) rest, attrs =>
      .cons k (.mk { c with attributes := attrs } s) (shareAttributes rest attrs)

mutual
/-- The sub-appearances built by `setItem`'s isinstance cases
(lines 558-572): a `coordinates.Group` contributes its frames, points,
directions and subgroups; a `Hold` contributes its ik constraint and
contact points; every other kind contributes nothing. -/
def childrenOf : Item → Subs
  | .group fs ps ds sgs =>
      Subs.append (leafSubs "Frame" Item.frame fs)
        (Subs.append (leafSubs "Point" Item.point ps)
          (Subs.append (leafSubs "Direction" Item.direction ds)
            (subgroupChildren sgs)))
  | .hold hasIK contacts =>
      Subs.append
        (if hasIK then Subs.cons "ikConstraint" (leafVis Item.ikGoal (some "ik")) Subs.nil
          else Subs.nil)
        (contactSubsFrom (List.range contacts))
  | _ => .nil
/-- A subgroup child is a full `VisAppearance(g, n)` (line 567): its own
`__init__` builds its children recursively and shares its (still empty)
attribute map with them. -/
def subgroupChildren : NamedItems → Subs
  | .nil => .nil
  | .cons n it rest =>
      .cons ("Subgroup:" ++ n)
        (Vis.mk { name := some n, item := it } (shareAttributes (childrenOf it) []))
        (subgroupChildren rest)
end

/-- `VisAppearance.setItem` (lines 555-574): replace `item`, rebuild
`subAppearances` from the new item, and overwrite each direct child's
attribute map with this appearance's own (lines 573-574); all other
fields (attributes, custom appearance, animation, caches) persist. -/
def Vis.setItem : Vis → Item → Vis
  | .mk c _, item =>
      .mk { c with item := item } (shareAttributes (childrenOf item) c.attributes)

/-- `VisAppearance.__init__(item, name)` (lines 536-554): default field
state followed by `self.setItem(item)`. -/
def Vis.new (item : Item) (name : Option String) : Vis :=
  Vis.setItem (.mk { name := name, item := item } .nil) item

mutual
/-- `VisAppearance.markChanged` (lines 576-580): mark every display
cache dirty and recurse into the sub-appearances. -/
def Vis.markChanged : Vis → Vis
  | .mk c s =>
      .mk { c with displayCache := c.displayCache.map CachedGLObject.markChanged }
        (Subs.markChangedAll s)
def Subs.markChangedAll : Subs → Subs
  | .nil => .nil
  | .cons k a rest => .cons k a.markChanged (Subs.markChangedAll rest)
end

/-- Whether any display cache of the root is marked dirty (line 484's
`changed` bit, set through `markChanged`). -/
def Vis.cacheDirty (v : Vis) : Bool :=
  v.core.displayCache.any (fun c => c.changed)

mutual
/-- `VisAppearance.update(t)` (lines 594-603): with no animation the
draw configuration is cleared; otherwise it is the animation evaluated
at `speed*(t - startTime)` with loop semantics; recurse into children
with the same `t`. -/
def Vis.update : Vis → ℚ → Vis
  | .mk c s, t =>
      let c' :=
        match c.animation with
        | none => { c with drawConfig := none }
        | some tr =>
            let q := tr.evalLoop (c.animationSpeed * (t - c.animationStartTime))
            { c with drawConfig := some q }
      .mk c' (Subs.updateAll s t)
def Subs.updateAll : Subs → ℚ → Subs
  | .nil, _ => .nil
  | .cons k a rest, t => .cons k (a.update t) (Subs.updateAll rest t)
end

/-- Modelled from the spec: the model-configuration adapter
`config.getConfig(item)` (§6).  A raw vector item's configuration is
the vector itself; on items it does not support the adapter raises
(an error result, which `swapDrawConfig` catches).  The config module
is not part of the two source files. -/
def getConfig : Item → Except Unit (List ℚ)
  | .vector v => .ok v
  | _ => .error ()

/-- Modelled from the spec: `config.setConfig(item, vector)` (§6)
applies a configuration to the item, raising on a wrong-length
configuration (§7, "Animation apply failure"). -/
def setConfig : Item → List ℚ → Except Unit Item
  | .vector v, q => if q.length = v.length then .ok (.vector q) else .error ()
  | _, _ => .error ()

/-- Python truthiness of `self.drawConfig` (line 608 `if
self.drawConfig:`): `None` and the empty list are falsy. -/
def pyTruthy : Option (List ℚ) → Bool
  | none => false
  | some [] => false
  | some (_ :: _) => true

/-- The body of `swapDrawConfig` on one appearance (lines 608-616): if
`drawConfig` is truthy, read the current configuration, apply
`drawConfig` to the item and store the previous configuration back into
`drawConfig`; any exception from the adapter is caught and leaves the
state unchanged. -/
def swapCore (c : VisCore) : VisCore :=
  if pyTruthy c.drawConfig then
    match getConfig c.item with
    | .error _ => c
    | .ok newDrawConfig =>
        match setConfig c.item (c.drawConfig.getD []) with
        | .ok item' => { c with item := item', drawConfig := some newDrawConfig }
        | .error _ => c
  else c

mutual
/-- `VisAppearance.swapDrawConfig` (lines 605-618): swap the root, then
recurse into the sub-appearances. -/
def Vis.swapDrawConfig : Vis → Vis
  | .mk c s => .mk (swapCore c) (Subs.swapAll s)
def Subs.swapAll : Subs → Subs
  | .nil => .nil
  | .cons k a rest => .cons k a.swapDrawConfig (Subs.swapAll rest)
end

/-!
## VisualizationPlugin — the scene registry (lines 959-1147)

Every mutating operation executes between `_globalLock.acquire()` and
`_globalLock.release()` with no try/finally, so an exception raised in
the body (for instance the `KeyError` from `self.items[name]` on an
absent name) escapes with the lock still held.  Each operation therefore
returns an `OpResult` recording the state at the moment the call
returned or the exception escaped, the exception if any, and whether
the release was reached.
-/

/-- Python exceptions raised by the registry operations. -/
inductive PyErr where
  | keyError : PyErr
  | unboundLocalError : PyErr
  | typeError : PyErr
deriving DecidableEq, Repr

/-- The state set up by `VisualizationPlugin.__init__` (lines 960-966).
Note the instance attributes `animate` (line 965) and `animationTime`
(line 966) carry the same names as the methods defined at lines 1048 and
1073: in Python, instance attributes shadow class methods on attribute
lookup (see `VisualizationPlugin.getattr`). -/
structure VisualizationPlugin where
  items : List (String × Vis) := []
  labels : List (List ℚ × List String × List ℚ) := []
  t : ℚ := 0
  animate : Bool := true
  animationTime : ℚ := 0

/-- Outcome of a lock-guarded registry operation. -/
structure OpResult where
  state : VisualizationPlugin
  error : Option PyErr := none
  lockReleased : Bool := true

/-- `VisualizationPlugin.add` (lines 1035-1046).  With `keepAppearance`
set and an existing entry, line 1039 re-targets the existing appearance
in place via `setItem`; then line 1045 `self.items[name] = app` reads
the local variable `app`, which is assigned only in the other branch
(line 1044), so the call raises `UnboundLocalError` after the in-place
mutation and never reaches `_globalLock.release()` (line 1046).
Otherwise any existing entry is destroyed and replaced by a fresh
`VisAppearance(item, name)`. -/
def VisualizationPlugin.add (p : VisualizationPlugin) (name : String) (item : Item)
    (keepAppearance : Bool) : OpResult :=
  match keepAppearance, findEntry p.items name with
  | true, some v =>
      { state := { p with items := setEntry p.items name (v.setItem item) },
        error := some .unboundLocalError, lockReleased := false }
  | _, _ =>
      { state := { p with items := setEntry p.items name (Vis.new item (some name)) } }

/-- `VisualizationPlugin.remove` (lines 1084-1089): destroy and delete
the entry; `self.items[name]` raises `KeyError` when `name` is absent,
between the acquire (line 1086) and the release (line 1089). -/
def VisualizationPlugin.remove (p : VisualizationPlugin) (name : String) : OpResult :=
  match findEntry p.items name with
  | none => { state := p, error := some .keyError, lockReleased := false }
  | some _ => { state := { p with items := delEntry p.items name } }

/-- Python's observable dispatch of `Trajectory` versus a bare sequence
at line 1051 (`hasattr(animation,'__iter__')`): a list of milestones is
iterable, a `Trajectory` object is not. -/
inductive AnimateArg where
  | traj (tr : Trajectory) : AnimateArg
  | milestones (ms : List (List ℚ)) : AnimateArg
deriving DecidableEq, Repr

/-- Lines 1051-1054: a bare milestone list is wrapped as
`Trajectory(range(len(animation)), animation)` — knot times
`0,1,...,n-1`, i.e. unit-duration steps; a trajectory passes through. -/
def wrapAnimation : AnimateArg → Trajectory
  | .traj tr => tr
  | .milestones ms => ⟨(List.range ms.length).map (fun n => (n : ℚ)), ms⟩

/-- The body of `VisualizationPlugin.animate` (lines 1048-1059), as it
would execute if the method were reachable through attribute lookup
(see `VisualizationPlugin.getattr`): wrap a bare milestone sequence,
store the animation, the current animation clock as start time and the
speed, and mark the item changed. -/
def VisualizationPlugin.animateMethod (p : VisualizationPlugin) (name : String)
    (animation : AnimateArg) (speed : ℚ) : OpResult :=
  let tr := wrapAnimation animation
  match findEntry p.items name with
  | none => { state := p, error := some .keyError, lockReleased := false }
  | some v =>
      let v1 := Vis.modifyCore (fun c =>
        { c with animation := some tr, animationStartTime := p.animationTime,
                 animationSpeed := speed }) v
      { state := { p with items := setEntry p.items name v1.markChanged } }

/-- `VisualizationPlugin.hideLabel` (lines 1104-1109): set
`attributes["text_hidden"]` and call `markChanged` (line 1108). -/
def VisualizationPlugin.hideLabel (p : VisualizationPlugin) (name : String)
    (hidden : Bool) : OpResult :=
  match findEntry p.items name with
  | none => { state := p, error := some .keyError, lockReleased := false }
  | some v =>
      let v1 := Vis.modifyCore (fun c =>
        { c with attributes := setEntry c.attributes "text_hidden" (.pyBool hidden) }) v
      { state := { p with items := setEntry p.items name v1.markChanged } }

/-- `VisualizationPlugin.hide` (lines 1111-1115): set `hidden`; no
`markChanged`. -/
def VisualizationPlugin.hide (p : VisualizationPlugin) (name : String)
    (hidden : Bool) : OpResult :=
  match findEntry p.items name with
  | none => { state := p, error := some .keyError, lockReleased := false }
  | some v =>
      let v1 := Vis.modifyCore (fun c => { c with hidden := hidden }) v
      { state := { p with items := setEntry p.items name v1 } }

/-- `VisualizationPlugin.setAppearance` (lines 1117-1123): clear
`useDefaultAppearance`, install the custom appearance, `markChanged`. -/
def VisualizationPlugin.setAppearance (p : VisualizationPlugin) (name : String)
    (appearance : Appearance) : OpResult :=
  match findEntry p.items name with
  | none => { state := p, error := some .keyError, lockReleased := false }
  | some v =>
      let v1 := Vis.modifyCore (fun c =>
        { c with useDefaultAppearance := false, customAppearance := some appearance }) v
      { state := { p with items := setEntry p.items name v1.markChanged } }

/-- `VisualizationPlugin.setAttribute` (lines 1125-1132): upsert the
attribute, delete it again if the value is `None`, `markChanged`. -/
def VisualizationPlugin.setAttribute (p : VisualizationPlugin) (name attr : String)
    (value : PyVal) : OpResult :=
  match findEntry p.items name with
  | none => { state := p, error := some .keyError, lockReleased := false }
  | some v =>
      let v1 := Vis.modifyCore (fun c =>
        { c with attributes :=
            if value = .pyNone then delEntry (setEntry c.attributes attr value) attr
            else setEntry c.attributes attr value }) v
      { state := { p with items := setEntry p.items name v1.markChanged } }

/-- `VisualizationPlugin.revertAppearance` (lines 1134-1139): line 1137
assigns `True` to the misspelled attribute `useDefaultApperance`,
leaving the real `useDefaultAppearance` untouched, then `markChanged`. -/
def VisualizationPlugin.revertAppearance (p : VisualizationPlugin) (name : String) :
    OpResult :=
  match findEntry p.items name with
  | none => { state := p, error := some .keyError, lockReleased := false }
  | some v =>
      let v1 := Vis.modifyCore (fun c => { c with useDefaultApperance := some true }) v
      { state := { p with items := setEntry p.items name v1.markChanged } }

/-- `VisualizationPlugin.setColor` (lines 1141-1147): store
`attributes["color"] = [r,g,b,a]`, clear `useDefaultAppearance`,
`markChanged`. -/
def VisualizationPlugin.setColor (p : VisualizationPlugin) (name : String)
    (r g b a : ℚ) : OpResult :=
  match findEntry p.items name with
  | none => { state := p, error := some .keyError, lockReleased := false }
  | some v =>
      let v1 := Vis.modifyCore (fun c =>
        { c with attributes := setEntry c.attributes "color" (.vec [r, g, b, a]),
                 useDefaultAppearance := false }) v
      { state := { p with items := setEntry p.items name v1.markChanged } }

/-!
### Python attribute lookup on the plugin instance

`__init__` (lines 962-966) populates the instance dictionary; Python
resolves `self.name` through the instance dictionary before the class
dictionary, so the instance attributes `animate` and `animationTime`
shadow the methods of the same names (lines 1048 and 1073). -/

/-- An attribute value reachable on a `VisualizationPlugin` instance. -/
inductive PyAttrVal where
  | itemsDict (d : List (String × Vis)) : PyAttrVal
  | labelsList (l : List (List ℚ × List String × List ℚ)) : PyAttrVal
  | ratVal (q : ℚ) : PyAttrVal
  | boolVal (b : Bool) : PyAttrVal
  | method (methodName : String) : PyAttrVal

/-- The instance dictionary written by `__init__` (lines 962-966). -/
def VisualizationPlugin.instanceDict (p : VisualizationPlugin) :
    List (String × PyAttrVal) :=
  [("items", .itemsDict p.items), ("labels", .labelsList p.labels),
   ("t", .ratVal p.t), ("animate", .boolVal p.animate),
   ("animationTime", .ratVal p.animationTime)]

/-- The methods defined on the `VisualizationPlugin` class
(lines 968-1147). -/
def visualizationPluginClassMethods : List String :=
  ["initialize", "addLabel", "display", "idlefunc", "dirty", "clear", "add",
   "animate", "pauseAnimation", "stepAnimation", "animationTime", "remove",
   "getItemConfig", "setItemConfig", "hideLabel", "hide", "setAppearance",
   "setAttribute", "revertAppearance", "setColor"]

/-- Python attribute lookup `plugin.a`: instance dictionary first, then
the class dictionary. -/
def VisualizationPlugin.getattr (p : VisualizationPlugin) (a : String) :
    Option PyAttrVal :=
  match findEntry p.instanceDict a with
  | some v => some v
  | none =>
      if a ∈ visualizationPluginClassMethods then some (.method a) else none

/-- Whether the attribute value can be called.  Calling a non-callable
(such as a `bool`) raises `TypeError`. -/
def PyAttrVal.isCallable : PyAttrVal → Bool
  | .method _ => true
  | _ => false

/-!
### The render pass (display, lines 978-991)
-/

/-- One item draw of the render pass: the registry key and the world
context handed to `VisAppearance.draw` at line 987. -/
structure DisplayCall where
  key : String
  worldContext : Option Item
deriving DecidableEq

/-- `VisualizationPlugin.display` (lines 978-991): clear the labels,
resolve the world context from the entry stored under exactly `"world"`
(lines 980-981, `None` when absent), then for every item run
`update(animationTime)`, `swapDrawConfig`, `draw(world)`,
`swapDrawConfig`, recording the world argument passed to each draw.
The GL side effects of `draw` are modelled by the `CachedGLObject`
trace semantics and the appearance-override model below. -/
def VisualizationPlugin.display (p : VisualizationPlugin) :
    VisualizationPlugin × List DisplayCall :=
  let world : Option Item := (findEntry p.items "world").map (fun w => w.core.item)
  let processed := p.items.map (fun kv =>
    let v1 := ((kv.2.update p.animationTime).swapDrawConfig)
    let v2 := v1.swapDrawConfig
    ((kv.1, v2), DisplayCall.mk kv.1 world))
  ({ p with labels := [], items := processed.map Prod.fst },
    processed.map Prod.snd)

/-!
## Theorems about the registry and appearance state
-/

theorem findEntry_setEntry {α : Type} (l : List (String × α)) (k : String) (v : α) :
    findEntry (setEntry l k v) k = some v := by
  induction l with
  | nil => simp [setEntry, findEntry]
  | cons kv rest ih =>
      obtain ⟨k', w⟩ := kv
      by_cases h : k' = k
      · simp [setEntry, findEntry, h]
      · simp [setEntry, findEntry, h, ih]

theorem Vis.core_modifyCore (f : VisCore → VisCore) (v : Vis) :
    (v.modifyCore f).core = f v.core := by
  cases v
  rfl

theorem Vis.core_markChanged (v : Vis) :
    v.markChanged.core =
      { v.core with displayCache := v.core.displayCache.map CachedGLObject.markChanged } := by
  cases v
  rfl

/-- One swap is undone by a second swap at the level of a single
appearance's fields. -/
theorem swapCore_involutive (c : VisCore) : swapCore (swapCore c) = c := by
  rcases hd : c.drawConfig with _ | dcfg
  · simp [swapCore, pyTruthy, hd]
  · rcases dcfg with _ | ⟨d, ds⟩
    · simp [swapCore, pyTruthy, hd]
    · rcases hi : c.item with _ | _ | _ | _ | _ | _ | v | _ | ⟨fs, ps, dirs, sgs⟩ | ⟨ik, ct⟩
      case vector =>
        by_cases hlen : ds.length + 1 = v.length
        · have h1 : swapCore c = { c with item := .vector (d :: ds), drawConfig := some v } := by
            simp [swapCore, hd, hi, pyTruthy, getConfig, setConfig, hlen]
          rw [h1]
          rcases hvv : v with _ | ⟨v0, vs⟩
          · rw [hvv] at hlen
            simp at hlen
          · rw [hvv] at hlen
            simp only [List.length_cons] at hlen
            have hlen2 : vs.length + 1 = ds.length + 1 := by omega
            have h2 : swapCore { c with item := .vector (d :: ds), drawConfig := some (v0 :: vs) } =
                { c with item := .vector (v0 :: vs), drawConfig := some (d :: ds) } := by
              simp [swapCore, pyTruthy, getConfig, setConfig, hlen2]
            rw [h2, ← hvv, ← hi, ← hd]
        · simp [swapCore, hd, hi, pyTruthy, getConfig, setConfig, hlen]
      all_goals simp [swapCore, hd, hi, pyTruthy, getConfig]

mutual
theorem Vis.swap_swap : (v : Vis) → v.swapDrawConfig.swapDrawConfig = v
  | .mk c s => by
      show Vis.mk (swapCore (swapCore c)) (Subs.swapAll (Subs.swapAll s)) = Vis.mk c s
      rw [swapCore_involutive, Subs.swapAll_swapAll s]
theorem Subs.swapAll_swapAll : (s : Subs) → Subs.swapAll (Subs.swapAll s) = s
  | .nil => rfl
  | .cons k a rest => by
      show Subs.cons k a.swapDrawConfig.swapDrawConfig (Subs.swapAll (Subs.swapAll rest)) =
        Subs.cons k a rest
      rw [Vis.swap_swap a, Subs.swapAll_swapAll rest]
end

/-- C3: for every appearance (in particular one whose `drawConfig` was
produced by evaluating an attached animation at any time),
`swapDrawConfig` twice restores the exact prior state — item
configuration and all — and a configuration whose application fails is
caught and leaves the prior configuration (and the whole field state)
unchanged rather than raising. -/
theorem swapDrawConfig_roundtrip_and_fail_noop :
    (∀ v : Vis, v.swapDrawConfig.swapDrawConfig = v) ∧
    (∀ c : VisCore, setConfig c.item (c.drawConfig.getD []) = .error () → swapCore c = c) := by
  constructor
  · exact Vis.swap_swap
  · intro c herr
    rcases hd : c.drawConfig with _ | dcfg
    · simp [swapCore, pyTruthy, hd]
    · rcases dcfg with _ | ⟨d, ds⟩
      · simp [swapCore, pyTruthy, hd]
      · rcases hg : getConfig c.item with _ | q
        · simp [swapCore, pyTruthy, hd, hg]
        · rw [hd] at herr
          simp only [Option.getD_some] at herr
          simp [swapCore, pyTruthy, hd, hg, herr]

/-- Witness for C3: a round trip on an animated point item restores it,
and a wrong-length configuration applied to an unsupported item is a
no-op. -/
theorem swapDrawConfig_roundtrip_witness :
    (Vis.swapDrawConfig (Vis.swapDrawConfig
        (Vis.modifyCore (fun c => { c with drawConfig := some [4, 5, 6] })
          (Vis.new (Item.vector [1, 2, 3]) (some "pt")))) =
      Vis.modifyCore (fun c => { c with drawConfig := some [4, 5, 6] })
        (Vis.new (Item.vector [1, 2, 3]) (some "pt"))) ∧
    swapCore { name := none, item := Item.point, drawConfig := some [1] } =
      { name := none, item := Item.point, drawConfig := some [1] } := by
  constructor
  · exact swapDrawConfig_roundtrip_and_fail_noop.1 _
  · exact swapDrawConfig_roundtrip_and_fail_noop.2
      { name := none, item := Item.point, drawConfig := some [1] } rfl

/-- C2 (code_bug): on a registry already holding `"x"` with a color
attribute applied, `add("x", B, keepAppearance=True)` re-targets the
entry in place — afterwards the stored item is `B` and the color
attribute is preserved — but the call does not complete normally: it
raises `UnboundLocalError` (line 1045 reads the local `app`, assigned
only in the other branch) and escapes without releasing the global
lock. -/
theorem add_keepAppearance_unbound_local :
    (((((VisualizationPlugin.add {} "x" (Item.vector [1]) false).state).setColor
        "x" 1 0 0 1).state.add "x" (Item.vector [2]) true).error =
      some PyErr.unboundLocalError) ∧
    (((((VisualizationPlugin.add {} "x" (Item.vector [1]) false).state).setColor
        "x" 1 0 0 1).state.add "x" (Item.vector [2]) true).lockReleased = false) ∧
    ((findEntry ((((VisualizationPlugin.add {} "x" (Item.vector [1]) false).state).setColor
        "x" 1 0 0 1).state.add "x" (Item.vector [2]) true).state.items "x").map
      (fun v => (v.core.item, findEntry v.core.attributes "color")) =
      some (Item.vector [2], some (PyVal.vec [1, 0, 0, 1]))) := by
  refine ⟨rfl, rfl, ?_⟩
  decide

/-- C4 (code_bug): `remove` and `setAttribute` on an absent name do
signal the lookup failure (`KeyError` from `self.items[name]`), but the
exception escapes between `_globalLock.acquire()` and
`_globalLock.release()` with no try/finally, so the global lock is
still held when the error propagates. -/
theorem remove_setAttribute_absent_lock_leak :
    ((VisualizationPlugin.remove {} "x").error = some PyErr.keyError ∧
      (VisualizationPlugin.remove {} "x").lockReleased = false) ∧
    ((VisualizationPlugin.setAttribute {} "x" "size" (PyVal.num 10)).error =
        some PyErr.keyError ∧
      (VisualizationPlugin.setAttribute {} "x" "size" (PyVal.num 10)).lockReleased = false) :=
  ⟨⟨rfl, rfl⟩, ⟨rfl, rfl⟩⟩

/-- C5 (code_bug): on every plugin instance, attribute lookup of
`"animate"` finds the boolean instance attribute set by `__init__`
(line 965), never the method (line 1048), and that value is not
callable — so every call `plugin.animate(...)` raises `TypeError`.  The
method body itself, were it reachable, does what the claim says: on the
scenario registry it wraps the two milestones into a trajectory with
knot times `0,1`, stores the current animation clock `2` as start time
and `1` as speed, and marks the item changed. -/
theorem animate_shadowed_by_instance_attribute :
    (∀ p : VisualizationPlugin,
      p.getattr "animate" = some (PyAttrVal.boolVal p.animate) ∧
      PyAttrVal.isCallable (PyAttrVal.boolVal p.animate) = false) ∧
    ((VisualizationPlugin.animateMethod
        { items := [("pt", Vis.new (Item.vector [0, 0, 0]) (some "pt"))],
          animationTime := 2 } "pt"
        (AnimateArg.milestones [[0, 0, 0], [1, 1, 1]]) 1).error = none ∧
      (findEntry (VisualizationPlugin.animateMethod
        { items := [("pt", Vis.new (Item.vector [0, 0, 0]) (some "pt"))],
          animationTime := 2 } "pt"
        (AnimateArg.milestones [[0, 0, 0], [1, 1, 1]]) 1).state.items "pt").map
        (fun v => (v.core.animation, v.core.animationStartTime,
          v.core.animationSpeed, v.cacheDirty)) =
      some (some ⟨[0, 1], [[0, 0, 0], [1, 1, 1]]⟩, 2, 1, true)) := by
  refine ⟨fun p => ⟨rfl, rfl⟩, rfl, ?_⟩
  decide

/-- Counterexample for C7: on a freshly added item `"x"` whose display
cache is clean, `hideLabel` leaves the cache dirty (it calls
`markChanged`, line 1108), and `revertAppearance` after `setColor`
leaves `useDefaultAppearance` at `false` (line 1137 assigns the
misspelled `useDefaultApperance`) — refuting, at these inputs, both
"hideLabel is not followed by markChanged" and "revertAppearance sets
useDefaultAppearance to True". -/
theorem appearance_ops_claim_counterexample :
    ((Vis.new (Item.vector [1]) (some "x")).cacheDirty = false) ∧
    ((findEntry (VisualizationPlugin.hideLabel
        { items := [("x", Vis.new (Item.vector [1]) (some "x"))] } "x" true).state.items
        "x").map Vis.cacheDirty = some true) ∧
    ((findEntry ((VisualizationPlugin.setColor
        { items := [("x", Vis.new (Item.vector [1]) (some "x"))] } "x" 1 0 0 1).state.revertAppearance
        "x").state.items "x").map (fun v => v.core.useDefaultAppearance) = some false) := by
  refine ⟨rfl, ?_, ?_⟩ <;> decide

/-- C7 as amended: `setColor` stores the color attribute and clears
`useDefaultAppearance`, `setAppearance` installs the custom appearance
and clears `useDefaultAppearance`, and each is followed by
`markChanged`; `revertAppearance` assigns `True` to the misspelled
`useDefaultApperance` attribute, leaves `useDefaultAppearance`
unchanged, and is also followed by `markChanged`; `hideLabel` stores
the `text_hidden` attribute and is also followed by `markChanged`;
`hide` mutates only the `hidden` flag and is not followed by
`markChanged` (its display caches are untouched). -/
theorem appearance_ops_effects (p : VisualizationPlugin) (name : String) (v : Vis)
    (r g b a : ℚ) (app : Appearance)
    (h : findEntry p.items name = some v) :
    ((findEntry (p.setColor name r g b a).state.items name).map (fun w =>
        (findEntry w.core.attributes "color", w.core.useDefaultAppearance,
          w.core.displayCache)) =
      some (some (PyVal.vec [r, g, b, a]), false,
        v.core.displayCache.map CachedGLObject.markChanged)) ∧
    ((findEntry (p.setAppearance name app).state.items name).map (fun w =>
        (w.core.customAppearance, w.core.useDefaultAppearance, w.core.displayCache)) =
      some (some app, false, v.core.displayCache.map CachedGLObject.markChanged)) ∧
    ((findEntry (p.revertAppearance name).state.items name).map (fun w =>
        (w.core.useDefaultApperance, w.core.useDefaultAppearance, w.core.displayCache)) =
      some (some true, v.core.useDefaultAppearance,
        v.core.displayCache.map CachedGLObject.markChanged)) ∧
    ((findEntry (p.hideLabel name true).state.items name).map (fun w =>
        (findEntry w.core.attributes "text_hidden", w.core.displayCache)) =
      some (some (PyVal.pyBool true), v.core.displayCache.map CachedGLObject.markChanged)) ∧
    ((findEntry (p.hide name true).state.items name).map (fun w =>
        (w.core.hidden, w.core.displayCache)) =
      some (true, v.core.displayCache)) := by
  refine ⟨?_, ?_, ?_, ?_, ?_⟩ <;>
    simp [VisualizationPlugin.setColor, VisualizationPlugin.setAppearance,
      VisualizationPlugin.revertAppearance, VisualizationPlugin.hideLabel,
      VisualizationPlugin.hide, h, findEntry_setEntry, Vis.core_markChanged,
      Vis.core_modifyCore]

/-- Witness for C7 (amended): the effects at a concrete registry. -/
theorem appearance_ops_effects_witness :
    (findEntry (VisualizationPlugin.hide
        { items := [("x", Vis.new (Item.vector [1]) (some "x"))] } "x" true).state.items
        "x").map (fun w => (w.core.hidden, w.core.displayCache)) =
      some (true, (Vis.new (Item.vector [1]) (some "x")).core.displayCache) :=
  (appearance_ops_effects { items := [("x", Vis.new (Item.vector [1]) (some "x"))] }
    "x" (Vis.new (Item.vector [1]) (some "x")) 1 0 0 1 ⟨0, none⟩ rfl).2.2.2.2

/-- C10: every draw of the render pass receives as world context exactly
the item of the registry entry named `"world"` when one exists, and
`None` otherwise; no other entry contributes. -/
theorem display_world_context (p : VisualizationPlugin) (c : DisplayCall)
    (hc : c ∈ p.display.2) :
    c.worldContext = (findEntry p.items "world").map (fun w => w.core.item) := by
  simp only [VisualizationPlugin.display, List.map_map, List.mem_map] at hc
  obtain ⟨kv, _, hkv⟩ := hc
  rw [← hkv]
  simp

/-!
## Reference-level attribute sharing (`setItem`, lines 555-574)

The value-level `Vis` model cannot express Python's aliasing of the
`attributes` dictionaries, so sharing is modelled by giving every
`self.attributes = {}` (line 546) a fresh address and replaying the
reference assignments `a.attributes = self.attributes` (lines 573-574),
which rebind the attribute reference of the direct children only —
grandchildren built by a child's own earlier `setItem` keep pointing at
the child's original dictionary.
-/

mutual
inductive VisAlloc where
  | mk (attrRef : ℕ) (subs : VisAllocList) : VisAlloc
deriving DecidableEq
inductive VisAllocList where
  | nil : VisAllocList
  | cons (key : String) (a : VisAlloc) (rest : VisAllocList) : VisAllocList
deriving DecidableEq
end

/-- Fresh leaf appearances, one per name, each with its own attribute
dictionary (lines 560-565). -/
def leavesAlloc : List String → ℕ → VisAllocList × ℕ
  | [], c => (.nil, c)
  | n :: ns, c =>
      let r := leavesAlloc ns (c + 1)
      (.cons n (VisAlloc.mk c .nil) r.1, r.2)

/-- Fresh contact-point appearances (lines 571-572). -/
def contactsAlloc : ℕ → ℕ → VisAllocList × ℕ
  | 0, c => (.nil, c)
  | n + 1, c =>
      let r := contactsAlloc n (c + 1)
      (.cons (toString n) (VisAlloc.mk c .nil) r.1, r.2)

def appendAllocList : VisAllocList → VisAllocList → VisAllocList
  | .nil, t => t
  | .cons k a rest, t => .cons k a (appendAllocList rest t)

/-- `a.attributes = self.attributes` over the direct children only
(lines 573-574). -/
def rebindTop : VisAllocList → ℕ → VisAllocList
  | .nil, _ => .nil
  | .cons k (.mk _ s) rest, r => .cons k (.mk r s) (rebindTop rest r)

mutual
/-- `VisAppearance(item, name)` at the reference level: `__init__`
allocates a fresh dictionary for `self.attributes` (line 546), then
`setItem` builds the children — each allocating its own dictionaries
recursively (lines 559-572) — and rebinds each direct child's
`attributes` reference to this object's dictionary (lines 573-574).
Returns the built tree and the next free address. -/
def newVisAlloc : Item → ℕ → VisAlloc × ℕ
  | it, c =>
      let children : VisAllocList × ℕ :=
        match it with
        | .group fs ps ds sgs =>
            let l1 := leavesAlloc fs (c + 1)
            let l2 := leavesAlloc ps l1.2
            let l3 := leavesAlloc ds l2.2
            let l4 := subgroupsAlloc sgs l3.2
            (appendAllocList l1.1 (appendAllocList l2.1 (appendAllocList l3.1 l4.1)), l4.2)
        | .hold hasIK contacts =>
            if hasIK then
              let cl := contactsAlloc contacts (c + 2)
              (VisAllocList.cons "ikConstraint" (VisAlloc.mk (c + 1) .nil) cl.1, cl.2)
            else contactsAlloc contacts (c + 1)
        | _ => (.nil, c + 1)
      (VisAlloc.mk c (rebindTop children.1 c), children.2)
/-- A subgroup child is a full `VisAppearance(g, n)` (line 567). -/
def subgroupsAlloc : NamedItems → ℕ → VisAllocList × ℕ
  | .nil, c => (.nil, c)
  | .cons n it rest, c =>
      let a := newVisAlloc it c
      let r := subgroupsAlloc rest a.2
      (.cons ("Subgroup:" ++ n) a.1 r.1, r.2)
end

mutual
/-- All attribute-dictionary references reachable in the tree. -/
def VisAlloc.refs : VisAlloc → List ℕ
  | .mk r s => r :: VisAllocList.refsAll s
def VisAllocList.refsAll : VisAllocList → List ℕ
  | .nil => []
  | .cons _ a rest => a.refs ++ VisAllocList.refsAll rest
end

/-- The claim's invariant: every appearance reachable through
`subAppearances`, at every depth, shares the root's attribute
dictionary. -/
def VisAlloc.allShared : VisAlloc → Bool
  | .mk r s => (VisAllocList.refsAll s).all (fun x => x == r)

def allTopShared : VisAllocList → ℕ → Bool
  | .nil, _ => true
  | .cons _ (.mk r' _) rest, r => (r' == r) && allTopShared rest r

/-- Sharing restricted to the direct children. -/
def VisAlloc.directShared : VisAlloc → Bool
  | .mk r s => allTopShared s r

def VisAlloc.hasSubs : VisAlloc → Bool
  | .mk _ .nil => false
  | .mk _ (.cons _ _ _) => true

/-- The composite kinds of `setItem`'s isinstance cases (Group, Hold). -/
def Item.isComposite : Item → Bool
  | .group _ _ _ _ => true
  | .hold _ _ => true
  | _ => false

theorem allTopShared_rebindTop : (l : VisAllocList) → (r : ℕ) →
    allTopShared (rebindTop l r) r = true
  | .nil, _ => rfl
  | .cons k (.mk r' s) rest, r => by
      simp [rebindTop, allTopShared, allTopShared_rebindTop rest r]

/-- Counterexample for C8: for a Group holding a subgroup that itself
holds a frame, the frame's appearance (depth 2) still references the
subgroup's original attribute dictionary, not the root's — the parent's
`setItem` rebinds only its direct children (lines 573-574), after the
child's own `setItem` already pointed the grandchild at the child's
then-fresh dictionary. -/
theorem setItem_attribute_sharing_counterexample :
    (newVisAlloc (Item.group [] [] []
        (NamedItems.cons "g" (Item.group ["f"] [] [] NamedItems.nil)
          NamedItems.nil)) 0).1.allShared = false := by
  decide

/-- C8 as amended: after construction/`setItem`, every direct
sub-appearance shares the root's attribute dictionary, and
`subAppearances` is non-empty only for composite items (a Group or a
Hold); sharing at depth ≥ 2 does not hold in general (see the
counterexample). -/
theorem setItem_attribute_sharing_direct (it : Item) (c : ℕ) :
    ((newVisAlloc it c).1.directShared = true) ∧
    ((newVisAlloc it c).1.hasSubs = true → it.isComposite = true) := by
  constructor
  · rcases it with _ | _ | _ | _ | _ | _ | v | _ | ⟨fs, ps, ds, sgs⟩ | ⟨ik, ct⟩ <;>
      (simp only [newVisAlloc, VisAlloc.directShared]
       exact allTopShared_rebindTop _ c)
  · intro hs
    rcases it with _ | _ | _ | _ | _ | _ | v | _ | ⟨fs, ps, ds, sgs⟩ | ⟨ik, ct⟩ <;>
      first
        | rfl
        | (exfalso
           simp [newVisAlloc, rebindTop, VisAlloc.hasSubs] at hs)

/-- Witness for C8 (amended): a Hold with an ik constraint has children,
is composite, and its direct children share the root dictionary. -/
theorem setItem_attribute_sharing_direct_witness :
    ((newVisAlloc (Item.hold true 0) 0).1.directShared = true) ∧
    (Item.isComposite (Item.hold true 0) = true) :=
  ⟨(setItem_attribute_sharing_direct (Item.hold true 0) 0).1,
    (setItem_attribute_sharing_direct (Item.hold true 0) 0).2 (by decide)⟩

/-!
## Appearance override in `VisAppearance.draw` (lines 645-653, 954-956)

The override discipline around the type-dispatch drawing body, with the
body abstracted by whether it raises.
-/

/-- The state read and written by the override step: the appearance
fields consulted at lines 645-653, the `oldAppearance` snapshot
attribute (absent until line 647 first runs), and the item's appearance
slot. -/
structure DrawAppState where
  useDefaultAppearance : Bool
  customAppearance : Option Appearance := none
  attributes : List (String × PyVal) := []
  oldAppearance : Option Appearance := none
  itemAppearance : Appearance
deriving DecidableEq

/-- `item.appearance().setColor(*self.attributes["color"])` (line 653):
a partial override of the color component only. -/
def Appearance.setColor (ap : Appearance) (col : List ℚ) : Appearance :=
  { ap with color := some col }

/-- Lines 645-653: under `not useDefaultAppearance and
hasattr(item,'appearance')`, snapshot the appearance into
`self.oldAppearance` unless that attribute already exists, then apply
`customAppearance` wholesale if set, else the `"color"` attribute if
present. -/
def applyAppearanceStep (s : DrawAppState) (hasAppearance : Bool) : DrawAppState :=
  if !s.useDefaultAppearance && hasAppearance then
    let snap :=
      if s.oldAppearance.isNone then { s with oldAppearance := some s.itemAppearance } else s
    match snap.customAppearance with
    | some ca => { snap with itemAppearance := ca }
    | none =>
        match findEntry snap.attributes "color" with
        | some (PyVal.vec col) =>
            { snap with itemAppearance := snap.itemAppearance.setColor col }
        | _ => snap
  else s

/-- Lines 954-956: after the drawing body, under the same guard, the
appearance slot is reset to the snapshot. -/
def revertAppearanceStep (s : DrawAppState) (hasAppearance : Bool) : DrawAppState :=
  if !s.useDefaultAppearance && hasAppearance then
    { s with itemAppearance := s.oldAppearance.getD s.itemAppearance }
  else s

/-- `VisAppearance.draw` at the appearance-override level: apply
(lines 645-653), run the body, revert (lines 954-956).  No try/finally
guards the revert, so an exception from the body escapes first. -/
def drawAppearance (s : DrawAppState) (hasAppearance bodyRaises : Bool) :
    DrawAppState × Bool :=
  let s1 := applyAppearanceStep s hasAppearance
  if bodyRaises then (s1, true)
  else (revertAppearanceStep s1 hasAppearance, false)

theorem applyAppearanceStep_fields (s : DrawAppState)
    (h : s.useDefaultAppearance = false) :
    (applyAppearanceStep s true).oldAppearance =
        some (s.oldAppearance.getD s.itemAppearance) ∧
    (applyAppearanceStep s true).useDefaultAppearance = false := by
  simp only [applyAppearanceStep, h, Bool.not_false, Bool.and_self, Bool.and_true, if_true]
  rcases ho : s.oldAppearance with _ | op <;>
    rcases hc : s.customAppearance with _ | ca <;>
      rcases hf : findEntry s.attributes "color" with _ | (_ | b | q | colv | st) <;>
        simp [ho, hc, hf, h]

/-- Counterexample for C9: with a custom appearance applied and a
drawing body that raises, `draw` propagates the exception with the item
still wearing the override — the snapshot is not restored. -/
theorem draw_appearance_restore_counterexample :
    ((drawAppearance
        { useDefaultAppearance := false, customAppearance := some ⟨2, none⟩,
          itemAppearance := ⟨1, none⟩ } true true).2 = true) ∧
    ¬ ((drawAppearance
        { useDefaultAppearance := false, customAppearance := some ⟨2, none⟩,
          itemAppearance := ⟨1, none⟩ } true true).1.itemAppearance = ⟨1, none⟩) := by
  decide

/-- C9 as amended: with `useDefaultAppearance` false on an item exposing
an appearance slot, `draw` snapshots the original appearance only on
the first call (an existing snapshot is kept), applies
`customAppearance` wholesale (or the `"color"` attribute partially)
before drawing, and on normal completion restores the snapshot; but if
the drawing body raises, the exception propagates with the override
still applied — the restore is not guaranteed on that path. -/
theorem draw_appearance_override (s : DrawAppState)
    (h : s.useDefaultAppearance = false) :
    ((applyAppearanceStep s true).oldAppearance =
        some (s.oldAppearance.getD s.itemAppearance)) ∧
    (∀ ca, s.customAppearance = some ca →
      (applyAppearanceStep s true).itemAppearance = ca) ∧
    (∀ col, s.customAppearance = none →
      findEntry s.attributes "color" = some (PyVal.vec col) →
      (applyAppearanceStep s true).itemAppearance = s.itemAppearance.setColor col) ∧
    ((drawAppearance s true false).1.itemAppearance =
        s.oldAppearance.getD s.itemAppearance) ∧
    ((drawAppearance s true true).1 = applyAppearanceStep s true ∧
      (drawAppearance s true true).2 = true) := by
  obtain ⟨h1, h2⟩ := applyAppearanceStep_fields s h
  refine ⟨h1, ?_, ?_, ?_, rfl, rfl⟩
  · intro ca hca
    simp only [applyAppearanceStep, h, Bool.not_false, Bool.and_self, if_true]
    rcases ho : s.oldAppearance with _ | op <;> simp [ho, hca]
  · intro col hcn hcol
    simp only [applyAppearanceStep, h, Bool.not_false, Bool.and_self, if_true]
    rcases ho : s.oldAppearance with _ | op <;> simp [ho, hcn, hcol]
  · show (revertAppearanceStep (applyAppearanceStep s true) true).itemAppearance = _
    simp [revertAppearanceStep, h2, h1]

/-- Witness for C9 (amended): at a concrete first-call state the
snapshot is taken and a completed draw restores it. -/
theorem draw_appearance_override_witness :
    ((applyAppearanceStep
        { useDefaultAppearance := false, customAppearance := some ⟨5, none⟩,
          itemAppearance := ⟨3, none⟩ } true).oldAppearance = some ⟨3, none⟩) ∧
    ((drawAppearance
        { useDefaultAppearance := false, customAppearance := some ⟨5, none⟩,
          itemAppearance := ⟨3, none⟩ } true false).1.itemAppearance = ⟨3, none⟩) :=
  ⟨(draw_appearance_override
      { useDefaultAppearance := false, customAppearance := some ⟨5, none⟩,
        itemAppearance := ⟨3, none⟩ } rfl).1.trans (by decide),
    (draw_appearance_override
      { useDefaultAppearance := false, customAppearance := some ⟨5, none⟩,
        itemAppearance := ⟨3, none⟩ } rfl).2.2.2.1.trans (by decide)⟩

/-- Witness for C10: with a world entry present, the draw of `"a"`
receives that world item. -/
theorem display_world_context_witness :
    (DisplayCall.mk "a" (some (Item.vector [7])) ∈
      (VisualizationPlugin.display
        { items := [("a", Vis.new Item.point (some "a")),
          ("world", Vis.new (Item.vector [7]) (some "world"))] }).2) ∧
    (DisplayCall.mk "a" (some (Item.vector [7]))).worldContext =
      (findEntry (({ items := [("a", Vis.new Item.point (some "a")),
          ("world", Vis.new (Item.vector [7]) (some "world"))] } :
            VisualizationPlugin).items) "world").map (fun w => w.core.item) :=
  ⟨by decide,
    display_world_context
      { items := [("a", Vis.new Item.point (some "a")),
        ("world", Vis.new (Item.vector [7]) (some "world"))] }
      (DisplayCall.mk "a" (some (Item.vector [7]))) (by decide)⟩

end KlamptVis
